import Mathlib

set_option maxRecDepth 4000

/-!
Shallow embedding of the router state machine of the Router-Slaved firmware
(src/slave/src/RouterController.{h,cpp}, src/slave/src/SlaveController.cpp,
src/slave/src/config.h).

Modelling conventions:
* `millis()` is modelled as a monotonic `Nat` clock passed explicitly as `now`;
  elapsed time `currentTime - stateStartTime` (unsigned 32-bit subtraction in
  the source) is modelled as truncated `Nat` subtraction, which coincides with
  the unsigned arithmetic whenever `now ≥ stateStartTime` (always true for a
  monotonic clock between the same boot, absent 49-day wraparound).
* Every `Serial.println` line is an enumerated `Line` value (the comment next
  to each constructor gives the exact text printed by the source).
* `digitalWrite(pin, level)` is an `Ev.gpio pin level` event.
* `broadcastState()` (which prints the current state name and invokes the
  `onStateChange` callback) is one `Ev.broadcast currentState` event.
* The sensor is read at most once per tick (the source calls
  `isSensor1Active()` several times inside one `loop()` call; per spec §5 all
  inputs are sampled synchronously at the start of a tick, so one Bool
  parameter per tick is the faithful reading).
-/

/-- `enum class RouterState` from RouterController.h. -/
inductive RouterState
  | IDLE
  | WAITING_FOR_PUSH
  | PUSHING
  | RAISING
  | WAITING_FOR_ANALYSIS
  | EJECTING
  | LOWERING
  | ERROR
deriving DecidableEq, Repr

/-- Serial lines printed by RouterController.cpp, one constructor per distinct
`Serial.println` site. -/
inductive Line
  | sensorChanged (isOn : Bool)      -- "DEBUG: Sensor 1 changed to: ON/OFF"
  | pushActivated                    -- "DEBUG: Push cylinder activated"
  | pushDeactivated                  -- "DEBUG: Push cylinder deactivated"
  | riserActivated                   -- "DEBUG: Riser cylinder activated"
  | riserDeactivated                 -- "DEBUG: Riser cylinder deactivated"
  | slaveRequestAnalysisStart        -- "SLAVE_REQUEST ANALYSIS_START"
  | slaveRequestNonAnalysisCycle     -- "SLAVE_REQUEST NON_ANALYSIS_CYCLE"
  | warningRaisingNonAnalysis        -- "WARNING Unexpected state: RAISING in non-analysis mode"
  | ignoringAnalysisResult           -- "DEBUG: Ignoring analysis result - not in waiting state"
  | processingAnalysisResult (eject : Bool)  -- "DEBUG: Processing analysis result: EJECT/PASS"
  | startingEjectionSequence         -- "DEBUG: Starting ejection sequence"
  | noEjectionNeeded                 -- "DEBUG: No ejection needed, lowering"
  | startEjectionCalled              -- "DEBUG: startEjection called"
  | ejectionActivated                -- "DEBUG: Ejection cylinder activated"
deriving DecidableEq, Repr

/-- Observable outputs of the controller: serial lines, GPIO writes, and
state-change notifications (`broadcastState`). -/
inductive Ev
  | line (l : Line)
  | gpio (pin : Nat) (level : Bool)
  | broadcast (st : RouterState)
deriving DecidableEq, Repr

-- Pin numbers from config.h.
def PUSH_CYLINDER_PIN : Nat := 18
def EJECTION_CYLINDER_PIN : Nat := 5
def RISER_CYLINDER_PIN : Nat := 19

-- Timing constants from config.h (milliseconds).
def DEFAULT_PUSH_TIME : Nat := 3000
def DEFAULT_RISER_TIME : Nat := 3000
def DEFAULT_EJECTION_TIME : Nat := 1000
def ANALYSIS_TIMEOUT : Nat := 5000
def CYCLE_DELAY : Nat := 1000
def SENSOR_DELAY_TIME : Nat := 300

/-- Mutable fields of `class RouterController` relevant to the state machine
(RouterController.h). -/
structure Router where
  currentState : RouterState
  cycleStartTime : Nat
  stateStartTime : Nat
  pushTime : Nat
  riserTime : Nat
  ejectionTime : Nat
  analysisMode : Bool
  analysisComplete : Bool
  shouldEject : Bool
  pushCylinderState : Bool
  riserCylinderState : Bool
  ejectionCylinderState : Bool
  lastSensor1State : Bool
deriving DecidableEq, Repr

/-- The constructor `RouterController::RouterController()` plus the in-class
initializer `lastSensor1State = false`. -/
def initRouter : Router :=
  { currentState := RouterState.IDLE
    cycleStartTime := 0
    stateStartTime := 0
    pushTime := DEFAULT_PUSH_TIME
    riserTime := DEFAULT_RISER_TIME
    ejectionTime := DEFAULT_EJECTION_TIME
    analysisMode := true
    analysisComplete := false
    shouldEject := false
    pushCylinderState := false
    riserCylinderState := false
    ejectionCylinderState := false
    lastSensor1State := false }

/-- `RouterController::broadcastState()`: prints the current state name and
fires the `onStateChange` callback; modelled as one broadcast event. -/
def broadcastState (r : Router) : List Ev :=
  [Ev.broadcast r.currentState]

/-- `RouterController::activatePushCylinder()`. -/
def activatePushCylinder (r : Router) : Router × List Ev :=
  ({ r with pushCylinderState := true },
   [Ev.gpio PUSH_CYLINDER_PIN true, Ev.line Line.pushActivated])

/-- `RouterController::deactivatePushCylinder()` (ends with `broadcastState`). -/
def deactivatePushCylinder (r : Router) : Router × List Ev :=
  let r1 := { r with pushCylinderState := false }
  (r1, [Ev.gpio PUSH_CYLINDER_PIN false, Ev.line Line.pushDeactivated] ++ broadcastState r1)

/-- `RouterController::activateRiserCylinder()` (ends with `broadcastState`). -/
def activateRiserCylinder (r : Router) : Router × List Ev :=
  let r1 := { r with riserCylinderState := true }
  (r1, [Ev.gpio RISER_CYLINDER_PIN true, Ev.line Line.riserActivated] ++ broadcastState r1)

/-- `RouterController::deactivateRiserCylinder()` (ends with `broadcastState`). -/
def deactivateRiserCylinder (r : Router) : Router × List Ev :=
  let r1 := { r with riserCylinderState := false }
  (r1, [Ev.gpio RISER_CYLINDER_PIN false, Ev.line Line.riserDeactivated] ++ broadcastState r1)

/-- `RouterController::startAnalysis()`. -/
def startAnalysis (r : Router) (now : Nat) : Router × List Ev :=
  ({ r with stateStartTime := now
            currentState := RouterState.WAITING_FOR_ANALYSIS
            analysisComplete := false },
   [Ev.line Line.slaveRequestAnalysisStart])

/-- `RouterController::startEjection()`. -/
def startEjection (r : Router) (now : Nat) : Router × List Ev :=
  let r1 := { r with ejectionCylinderState := true
                     stateStartTime := now
                     currentState := RouterState.EJECTING }
  (r1, [Ev.line Line.startEjectionCalled, Ev.gpio EJECTION_CYLINDER_PIN true,
        Ev.line Line.ejectionActivated] ++ broadcastState r1)

/-- `RouterController::lowerAndWait()`: deactivates the riser (which
broadcasts the still-current state), then moves to LOWERING. -/
def lowerAndWait (r : Router) (now : Nat) : Router × List Ev :=
  let p := deactivateRiserCylinder r
  ({ p.1 with stateStartTime := now, currentState := RouterState.LOWERING }, p.2)

/-- `RouterController::handleAnalysisResult(bool eject)`. -/
def handleAnalysisResult (r : Router) (eject : Bool) (now : Nat) : Router × List Ev :=
  if r.currentState ≠ RouterState.WAITING_FOR_ANALYSIS then
    (r, [Ev.line Line.ignoringAnalysisResult])
  else
    let r1 := { r with analysisComplete := true, shouldEject := eject }
    let p :=
      if eject then
        let q := startEjection r1 now
        (q.1, Ev.line Line.startingEjectionSequence :: q.2)
      else
        let q := lowerAndWait r1 now
        (q.1, Ev.line Line.noEjectionNeeded :: q.2)
    (p.1, Ev.line (Line.processingAnalysisResult eject) :: p.2 ++ broadcastState p.1)

/-- `RouterController::abortAnalysis()`. -/
def abortAnalysis (r : Router) (now : Nat) : Router × List Ev :=
  if r.currentState ≠ RouterState.WAITING_FOR_ANALYSIS then (r, [])
  else lowerAndWait r now

/-- `RouterController::abortCurrentAnalysis()`. -/
def abortCurrentAnalysis (r : Router) (now : Nat) : Router × List Ev :=
  if r.currentState = RouterState.WAITING_FOR_ANALYSIS then abortAnalysis r now
  else (r, [])

/-- `RouterController::startCycle()`. -/
def startCycle (r : Router) (now : Nat) : Router × List Ev :=
  let r1 := { r with cycleStartTime := now
                     stateStartTime := now
                     currentState := RouterState.WAITING_FOR_PUSH }
  (r1, broadcastState r1)

-- Settings setters from RouterController.h.
def setPushTime (r : Router) (timeMs : Nat) : Router := { r with pushTime := timeMs }
def setRiserTime (r : Router) (timeMs : Nat) : Router := { r with riserTime := timeMs }
def setEjectionTime (r : Router) (timeMs : Nat) : Router := { r with ejectionTime := timeMs }
def setAnalysisMode (r : Router) (enabled : Bool) : Router := { r with analysisMode := enabled }

/-- `RouterController::updateState()`; `sensor` is the tick's debounced
`isSensor1Active()` reading, `now` the tick's `millis()` value. -/
def updateState (r : Router) (sensor : Bool) (now : Nat) : Router × List Ev :=
  match r.currentState with
  | RouterState.WAITING_FOR_PUSH =>
      if SENSOR_DELAY_TIME ≤ now - r.stateStartTime then
        let r1 := { r with currentState := RouterState.PUSHING }
        let p := activatePushCylinder r1
        let r2 := { p.1 with stateStartTime := now }
        (r2, p.2 ++ broadcastState r2)
      else (r, [])
  | RouterState.PUSHING =>
      if sensor = false ∧ r.pushTime ≤ now - r.stateStartTime then
        let p := deactivatePushCylinder r
        if r.analysisMode then
          let q := activateRiserCylinder { p.1 with currentState := RouterState.RAISING }
          let r2 := { q.1 with stateStartTime := now }
          (r2, p.2 ++ q.2 ++ broadcastState r2)
        else
          let r2 := { p.1 with currentState := RouterState.LOWERING, stateStartTime := now }
          (r2, p.2 ++ [Ev.line Line.slaveRequestNonAnalysisCycle] ++ broadcastState r2)
      else (r, [])
  | RouterState.RAISING =>
      if r.riserTime ≤ now - r.stateStartTime then
        if r.analysisMode then
          let p := startAnalysis r now
          (p.1, p.2 ++ broadcastState p.1)
        else
          let p := lowerAndWait r now
          (p.1, Ev.line Line.warningRaisingNonAnalysis :: p.2 ++ broadcastState p.1)
      else (r, [])
  | RouterState.WAITING_FOR_ANALYSIS =>
      if ANALYSIS_TIMEOUT ≤ now - r.stateStartTime then abortAnalysis r now
      else (r, [])
  | RouterState.EJECTING =>
      if r.ejectionTime ≤ now - r.stateStartTime then
        let r1 := { r with ejectionCylinderState := false }
        let p := lowerAndWait r1 now
        (p.1, Ev.gpio EJECTION_CYLINDER_PIN false :: p.2 ++ broadcastState p.1)
      else (r, [])
  | RouterState.LOWERING =>
      if CYCLE_DELAY ≤ now - r.stateStartTime then
        let r1 := { r with currentState := RouterState.IDLE }
        (r1, broadcastState r1)
      else (r, [])
  | RouterState.ERROR => (r, [])
  | RouterState.IDLE => (r, [])

/-- `RouterController::loop()`: sensor-change notification, IDLE sensor check
(`startCycle` and early return), otherwise `updateState`. -/
def RouterController.loop (r : Router) (sensor : Bool) (now : Nat) : Router × List Ev :=
  let p :=
    if sensor ≠ r.lastSensor1State then
      let r0 := { r with lastSensor1State := sensor }
      (r0, Ev.line (Line.sensorChanged sensor) :: broadcastState r0)
    else (r, ([] : List Ev))
  if p.1.currentState = RouterState.IDLE ∧ sensor = true then
    let q := startCycle p.1 now
    (q.1, p.2 ++ q.2)
  else
    let q := updateState p.1 sensor now
    (q.1, p.2 ++ q.2)

/-- Inbound serial commands dispatched by `SlaveController::processCommand`. -/
inductive Command
  | status
  | abortAnalysisCmd                 -- "ABORT_ANALYSIS"
  | analysisResult (eject : Bool)    -- "ANALYSIS_RESULT TRUE|FALSE"
deriving DecidableEq, Repr

/-- The router-relevant portion of `SlaveController::loop()`: a pending serial
command (if any) is processed first, then `router.loop()` runs.  Heartbeat,
serial-watchdog and memory logging touch no router state and are omitted. -/
def SlaveController.loopTick (r : Router) (pending : Option Command) (sensor : Bool)
    (now : Nat) : Router × List Ev :=
  let p :=
    match pending with
    | some (Command.analysisResult e) => handleAnalysisResult r e now
    | some Command.abortAnalysisCmd => abortCurrentAnalysis r now
    | _ => (r, [])
  let q := RouterController.loop p.1 sensor now
  (q.1, p.2 ++ q.2)

/-- One atomic evolution step of the router as driven by the host: a tick of
`RouterController::loop`, an asynchronous verdict or abort, or a setting
change. -/
inductive Step : Router → Router → Prop
  | tick (r : Router) (sensor : Bool) (now : Nat) :
      Step r (RouterController.loop r sensor now).1
  | verdict (r : Router) (e : Bool) (now : Nat) :
      Step r (handleAnalysisResult r e now).1
  | abort (r : Router) (now : Nat) :
      Step r (abortCurrentAnalysis r now).1
  | setPush (r : Router) (d : Nat) : Step r (setPushTime r d)
  | setRiser (r : Router) (d : Nat) : Step r (setRiserTime r d)
  | setEjection (r : Router) (d : Nat) : Step r (setEjectionTime r d)
  | setMode (r : Router) (b : Bool) : Step r (setAnalysisMode r b)

/-- Router states reachable from the boot state through any interleaving of
ticks, verdicts, aborts and setting changes. -/
inductive Reachable : Router → Prop
  | init : Reachable initRouter
  | step {r r' : Router} : Reachable r → Step r r' → Reachable r'

/-- Inductive invariant tying each energized actuator to the only state in
which the code leaves it energized. -/
def ActuatorInv (r : Router) : Prop :=
  (r.pushCylinderState = true → r.currentState = RouterState.PUSHING) ∧
  (r.ejectionCylinderState = true → r.currentState = RouterState.EJECTING) ∧
  (r.riserCylinderState = true →
    r.currentState = RouterState.RAISING ∨
    r.currentState = RouterState.WAITING_FOR_ANALYSIS ∨
    r.currentState = RouterState.EJECTING)

/-- Number of "SLAVE_REQUEST ANALYSIS_START" lines in an event list. -/
def countAnalysisRequests : List Ev → Nat
  | [] => 0
  | Ev.line Line.slaveRequestAnalysisStart :: rest => countAnalysisRequests rest + 1
  | _ :: rest => countAnalysisRequests rest

/-- The state-change notifications in an event list, in order. -/
def broadcastsOf (evs : List Ev) : List RouterState :=
  evs.filterMap (fun e => match e with | Ev.broadcast st => some st | _ => none)

/-- The immediate-successor relation of the spec's transition table (§4.1),
including the verdict edge WAITING_FOR_ANALYSIS → EJECTING. -/
def isSuccessor : RouterState → RouterState → Bool
  | RouterState.IDLE, RouterState.WAITING_FOR_PUSH => true
  | RouterState.WAITING_FOR_PUSH, RouterState.PUSHING => true
  | RouterState.PUSHING, RouterState.RAISING => true
  | RouterState.PUSHING, RouterState.LOWERING => true
  | RouterState.RAISING, RouterState.WAITING_FOR_ANALYSIS => true
  | RouterState.RAISING, RouterState.LOWERING => true
  | RouterState.WAITING_FOR_ANALYSIS, RouterState.LOWERING => true
  | RouterState.WAITING_FOR_ANALYSIS, RouterState.EJECTING => true
  | RouterState.EJECTING, RouterState.LOWERING => true
  | RouterState.LOWERING, RouterState.IDLE => true
  | _, _ => false

set_option maxHeartbeats 2000000

/-- Claim C1: if the machine is in WAITING_FOR_ANALYSIS and no verdict is
submitted, then once at least ANALYSIS_TIMEOUT (5000 ms) has elapsed since
entering the state, the next tick moves the machine to LOWERING and the riser
actuator output is OFF. -/
theorem timeout_aborts_to_lowering (r : Router) (sensor : Bool) (now : Nat)
    (hS : r.currentState = RouterState.WAITING_FOR_ANALYSIS)
    (hT : ANALYSIS_TIMEOUT ≤ now - r.stateStartTime) :
    (RouterController.loop r sensor now).1.currentState = RouterState.LOWERING ∧
    (RouterController.loop r sensor now).1.riserCylinderState = false := by
  obtain ⟨st, cst, sst, pt, rt, et, am, ac, se, pc, rc, ec, ls⟩ := r
  simp only [Router.currentState] at hS
  subst hS
  simp only [Router.stateStartTime] at hT
  simp [RouterController.loop, updateState, abortAnalysis, lowerAndWait,
    deactivateRiserCylinder, broadcastState, hT]
  split <;> simp [hT]

/-- Witness for C1: a concrete WAITING_FOR_ANALYSIS state entered at time 0,
ticked at time 5000, ends in LOWERING with riser OFF. -/
theorem timeout_aborts_to_lowering_witness :
    (RouterController.loop
        { initRouter with currentState := RouterState.WAITING_FOR_ANALYSIS }
        false 5000).1.currentState = RouterState.LOWERING ∧
    (RouterController.loop
        { initRouter with currentState := RouterState.WAITING_FOR_ANALYSIS }
        false 5000).1.riserCylinderState = false :=
  timeout_aborts_to_lowering
    { initRouter with currentState := RouterState.WAITING_FOR_ANALYSIS }
    false 5000 rfl (by decide)

/-- Claim C2: in PUSHING the machine transitions away exactly when the sensor
reads inactive AND at least pushTime ms have elapsed in the state (neither
condition alone suffices); on that transition the push actuator is OFF and the
next state is RAISING with the riser ON when analysisMode is true, otherwise
LOWERING. -/
theorem pushing_exit_guard (r : Router) (sensor : Bool) (now : Nat)
    (hS : r.currentState = RouterState.PUSHING) :
    ((RouterController.loop r sensor now).1.currentState ≠ RouterState.PUSHING ↔
       (sensor = false ∧ r.pushTime ≤ now - r.stateStartTime)) ∧
    ((sensor = false ∧ r.pushTime ≤ now - r.stateStartTime) →
       (RouterController.loop r sensor now).1.pushCylinderState = false ∧
       (RouterController.loop r sensor now).1.currentState =
         (if r.analysisMode = true then RouterState.RAISING else RouterState.LOWERING) ∧
       (r.analysisMode = true →
         (RouterController.loop r sensor now).1.riserCylinderState = true)) := by
  obtain ⟨st, cst, sst, pt, rt, et, am, ac, se, pc, rc, ec, ls⟩ := r
  simp only [Router.currentState] at hS
  subst hS
  cases sensor <;> cases ls <;> cases am <;>
    by_cases hg : pt ≤ now - sst <;>
    simp [RouterController.loop, updateState, activateRiserCylinder,
      deactivatePushCylinder, broadcastState, hg]

/-- Witness for C2: a concrete PUSHING state entered at time 0 with
pushTime 3000, sensor inactive, ticked at time 3000, does transition away. -/
theorem pushing_exit_guard_witness :
    ({ initRouter with currentState := RouterState.PUSHING } : Router).currentState
      = RouterState.PUSHING ∧
    (RouterController.loop { initRouter with currentState := RouterState.PUSHING }
        false 3000).1.currentState ≠ RouterState.PUSHING :=
  ⟨rfl, (pushing_exit_guard { initRouter with currentState := RouterState.PUSHING }
      false 3000 rfl).1.mpr (by decide)⟩

/-- Claim C3: in any state other than WAITING_FOR_ANALYSIS, handleAnalysisResult
(with either verdict value) leaves the whole router record unchanged — in
particular the state and all three actuator outputs; the event is discarded,
nothing is queued for later. -/
theorem verdict_ignored_outside_waiting (r : Router) (e : Bool) (now : Nat)
    (hS : r.currentState ≠ RouterState.WAITING_FOR_ANALYSIS) :
    (handleAnalysisResult r e now).1 = r := by
  simp [handleAnalysisResult, hS]

/-- Witness for C3: a verdict delivered in IDLE leaves the boot state
unchanged. -/
theorem verdict_ignored_outside_waiting_witness :
    (handleAnalysisResult initRouter true 0).1 = initRouter :=
  verdict_ignored_outside_waiting initRouter true 0 (by decide)

/-- Claim C4: within a single host-loop tick, a pending analysis verdict is
applied before the WAITING_FOR_ANALYSIS timeout guard runs: when a verdict line
is available at the start of a tick in which the timeout has also expired, the
machine takes the verdict's transition (EJECTING if eject, else LOWERING, with
analysisComplete/shouldEject recording the verdict), not the timeout's. -/
theorem verdict_precedes_timeout (r : Router) (e sensor : Bool) (now : Nat)
    (hS : r.currentState = RouterState.WAITING_FOR_ANALYSIS)
    (hT : ANALYSIS_TIMEOUT ≤ now - r.stateStartTime)
    (hE : 0 < r.ejectionTime) :
    (handleAnalysisResult r e now).1.currentState =
      (if e = true then RouterState.EJECTING else RouterState.LOWERING) ∧
    (SlaveController.loopTick r (some (Command.analysisResult e)) sensor now).1.currentState =
      (if e = true then RouterState.EJECTING else RouterState.LOWERING) ∧
    (SlaveController.loopTick r (some (Command.analysisResult e)) sensor now).1.analysisComplete = true ∧
    (SlaveController.loopTick r (some (Command.analysisResult e)) sensor now).1.shouldEject = e := by
  obtain ⟨st, cst, sst, pt, rt, et, am, ac, se, pc, rc, ec, ls⟩ := r
  simp only [Router.currentState] at hS
  subst hS
  simp only [Router.ejectionTime] at hE
  have hE2 : ¬ (et = 0) := by omega
  have hC2 : ¬ (CYCLE_DELAY = 0) := by decide
  cases e <;> cases sensor <;> cases ls <;>
    simp [SlaveController.loopTick, handleAnalysisResult, startEjection,
      lowerAndWait, deactivateRiserCylinder, broadcastState,
      RouterController.loop, updateState, hE2, hC2]

/-- Witness for C4: a verdict eject=true available in the same host tick in
which the 5000 ms timeout expired puts the machine in EJECTING. -/
theorem verdict_precedes_timeout_witness :
    (SlaveController.loopTick
        { initRouter with currentState := RouterState.WAITING_FOR_ANALYSIS }
        (some (Command.analysisResult true)) false 5000).1.currentState
      = RouterState.EJECTING := by
  have h := verdict_precedes_timeout
    { initRouter with currentState := RouterState.WAITING_FOR_ANALYSIS }
    true false 5000 rfl (by decide) (by decide)
  simpa using h.2.1

/-- ActuatorInv is preserved by one tick of RouterController::loop. -/
lemma actuatorInv_tick (r : Router) (sensor : Bool) (now : Nat) (h : ActuatorInv r) :
    ActuatorInv (RouterController.loop r sensor now).1 := by
  obtain ⟨st, cst, sst, pt, rt, et, am, ac, se, pc, rc, ec, ls⟩ := r
  obtain ⟨h1, h2, h3⟩ := h
  simp only [Router.pushCylinderState, Router.ejectionCylinderState,
    Router.riserCylinderState, Router.currentState] at h1 h2 h3
  cases st <;> cases sensor <;> cases ls <;> cases am <;>
    simp_all [ActuatorInv, RouterController.loop, updateState, startCycle,
      startAnalysis, abortAnalysis, lowerAndWait, startEjection,
      activatePushCylinder, deactivatePushCylinder, activateRiserCylinder,
      deactivateRiserCylinder, broadcastState] <;>
    split_ifs <;> simp_all

/-- ActuatorInv is preserved by an asynchronous verdict. -/
lemma actuatorInv_verdict (r : Router) (e : Bool) (now : Nat) (h : ActuatorInv r) :
    ActuatorInv (handleAnalysisResult r e now).1 := by
  obtain ⟨st, cst, sst, pt, rt, et, am, ac, se, pc, rc, ec, ls⟩ := r
  obtain ⟨h1, h2, h3⟩ := h
  simp only [Router.pushCylinderState, Router.ejectionCylinderState,
    Router.riserCylinderState, Router.currentState] at h1 h2 h3
  cases st <;> cases e <;>
    simp_all [ActuatorInv, handleAnalysisResult, startEjection, lowerAndWait,
      deactivateRiserCylinder, broadcastState]

/-- ActuatorInv is preserved by an abort command. -/
lemma actuatorInv_abort (r : Router) (now : Nat) (h : ActuatorInv r) :
    ActuatorInv (abortCurrentAnalysis r now).1 := by
  obtain ⟨st, cst, sst, pt, rt, et, am, ac, se, pc, rc, ec, ls⟩ := r
  obtain ⟨h1, h2, h3⟩ := h
  simp only [Router.pushCylinderState, Router.ejectionCylinderState,
    Router.riserCylinderState, Router.currentState] at h1 h2 h3
  cases st <;>
    simp_all [ActuatorInv, abortCurrentAnalysis, abortAnalysis, lowerAndWait,
      deactivateRiserCylinder, broadcastState]

/-- Every reachable router state satisfies ActuatorInv. -/
lemma actuatorInv_reachable {r : Router} (h : Reachable r) : ActuatorInv r := by
  induction h with
  | init =>
      refine ⟨?_, ?_, ?_⟩ <;> intro hx <;> simp [initRouter] at hx
  | step _ s ih =>
      cases s with
      | tick sensor now => exact actuatorInv_tick _ sensor now ih
      | verdict e now => exact actuatorInv_verdict _ e now ih
      | abort now => exact actuatorInv_abort _ now ih
      | setPush d => exact ih
      | setRiser d => exact ih
      | setEjection d => exact ih
      | setMode b => exact ih

/-- Claim C5: on every path, whenever the machine is back in IDLE (a cycle
boundary) all three actuator outputs (push, riser, ejection) are OFF,
regardless of which intermediate states the cycle visited or skipped; this
holds for every state reachable from boot by any interleaving of ticks,
verdicts, aborts and setting changes. -/
theorem idle_actuators_off (r : Router) (h : Reachable r)
    (hs : r.currentState = RouterState.IDLE) :
    r.pushCylinderState = false ∧ r.riserCylinderState = false ∧
    r.ejectionCylinderState = false := by
  obtain ⟨h1, h2, h3⟩ := actuatorInv_reachable h
  refine ⟨?_, ?_, ?_⟩
  · cases hp : r.pushCylinderState
    · rfl
    · rw [h1 hp] at hs; cases hs
  · cases hp : r.riserCylinderState
    · rfl
    · rcases h3 hp with h | h | h <;> rw [h] at hs <;> cases hs
  · cases hp : r.ejectionCylinderState
    · rfl
    · rw [h2 hp] at hs; cases hs

/-- Witness for C5: the boot state is reachable, is IDLE, and has all three
actuators OFF. -/
theorem idle_actuators_off_witness :
    initRouter.pushCylinderState = false ∧ initRouter.riserCylinderState = false ∧
    initRouter.ejectionCylinderState = false :=
  idle_actuators_off initRouter Reachable.init rfl

/-- Claim C6: a tick emits the "SLAVE_REQUEST ANALYSIS_START" line exactly once
when it transitions into WAITING_FOR_ANALYSIS and never otherwise; verdict and
abort events never emit it. So the line is emitted exactly once per visit to
WAITING_FOR_ANALYSIS, at entry. -/
theorem analysis_request_once_per_entry (r : Router) (e sensor : Bool) (now : Nat) :
    countAnalysisRequests (RouterController.loop r sensor now).2 =
      (if (RouterController.loop r sensor now).1.currentState = RouterState.WAITING_FOR_ANALYSIS ∧
          r.currentState ≠ RouterState.WAITING_FOR_ANALYSIS then 1 else 0) ∧
    countAnalysisRequests (handleAnalysisResult r e now).2 = 0 ∧
    countAnalysisRequests (abortCurrentAnalysis r now).2 = 0 := by
  obtain ⟨st, cst, sst, pt, rt, et, am, ac, se, pc, rc, ec, ls⟩ := r
  cases st <;> cases e <;> cases sensor <;> cases ls <;> cases am <;>
    simp [RouterController.loop, updateState, startCycle, startAnalysis,
      abortAnalysis, abortCurrentAnalysis, lowerAndWait, startEjection,
      handleAnalysisResult, activatePushCylinder, deactivatePushCylinder,
      activateRiserCylinder, deactivateRiserCylinder, broadcastState,
      countAnalysisRequests] <;>
    split_ifs <;> simp_all [countAnalysisRequests]

/-- Claim C7 counterexample: with pushTime 3000 and PUSHING entered at time 0,
a tick at time 1000 does not transition; after `setPushTime 500` mid-state the
same tick at time 1000 does transition — the change shrank the currently
running wait, contradicting the claim that a mid-state duration change does
not affect the in-flight wait. -/
theorem pushTime_change_shrinks_wait :
    (RouterController.loop { initRouter with currentState := RouterState.PUSHING }
        false 1000).1.currentState = RouterState.PUSHING ∧
    (RouterController.loop
        (setPushTime { initRouter with currentState := RouterState.PUSHING } 500)
        false 1000).1.currentState = RouterState.RAISING := by decide

/-- Claim C7 amended: all three duration settings are read live at
guard-evaluation time — after `setPushTime d` the transition out of PUSHING
fires exactly when the sensor is inactive and the elapsed time meets the NEW
value d, and after `setRiserTime d` / `setEjectionTime d` the transition out of
RAISING / EJECTING fires exactly when the elapsed time meets the NEW value d,
even for the state currently in flight. -/
theorem duration_settings_read_live (r : Router) (d : Nat) (sensor : Bool) (now : Nat) :
    (r.currentState = RouterState.PUSHING →
      ((RouterController.loop (setPushTime r d) sensor now).1.currentState ≠ RouterState.PUSHING ↔
        (sensor = false ∧ d ≤ now - r.stateStartTime))) ∧
    (r.currentState = RouterState.RAISING →
      ((RouterController.loop (setRiserTime r d) sensor now).1.currentState ≠ RouterState.RAISING ↔
        d ≤ now - r.stateStartTime)) ∧
    (r.currentState = RouterState.EJECTING →
      ((RouterController.loop (setEjectionTime r d) sensor now).1.currentState ≠ RouterState.EJECTING ↔
        d ≤ now - r.stateStartTime)) := by
  obtain ⟨st, cst, sst, pt, rt, et, am, ac, se, pc, rc, ec, ls⟩ := r
  cases st <;> cases sensor <;> cases ls <;> cases am <;>
    by_cases hg : d ≤ now - sst <;>
    simp [RouterController.loop, updateState, setPushTime, setRiserTime,
      setEjectionTime, startAnalysis, lowerAndWait, activateRiserCylinder,
      deactivatePushCylinder, deactivateRiserCylinder, broadcastState, hg]

/-- Witness for amended C7: shrinking each of pushTime, riserTime and
ejectionTime to 500 mid-state (each state entered at time 0 with its default
3000/3000/1000 ms duration) makes the tick at time 1000 leave that state. -/
theorem duration_settings_read_live_witness :
    (RouterController.loop
        (setPushTime { initRouter with currentState := RouterState.PUSHING } 500)
        false 1000).1.currentState ≠ RouterState.PUSHING ∧
    (RouterController.loop
        (setRiserTime { initRouter with currentState := RouterState.RAISING } 500)
        false 1000).1.currentState ≠ RouterState.RAISING ∧
    (RouterController.loop
        (setEjectionTime { initRouter with currentState := RouterState.EJECTING } 500)
        false 1000).1.currentState ≠ RouterState.EJECTING :=
  ⟨((duration_settings_read_live
        { initRouter with currentState := RouterState.PUSHING }
        500 false 1000).1 rfl).mpr (by decide),
   ((duration_settings_read_live
        { initRouter with currentState := RouterState.RAISING }
        500 false 1000).2.1 rfl).mpr (by decide),
   ((duration_settings_read_live
        { initRouter with currentState := RouterState.EJECTING }
        500 false 1000).2.2 rfl).mpr (by decide)⟩

/-- Claim C8 counterexample: (a) the analysis-timeout transition
(WAITING_FOR_ANALYSIS entered at time 0, tick at 5000) moves the state to
LOWERING but its only state-change notification reports WAITING_FOR_ANALYSIS —
the pre-transition state; (b) the PUSHING → RAISING transition (PUSHING entered
at time 0, sensor inactive, tick at 3000) emits three notifications, the first
reporting the pre-transition state PUSHING. Both contradict "exactly one
notification reporting the new (post-transition) state". -/
theorem broadcast_not_exactly_once_nor_new_state :
    ((RouterController.loop
        { initRouter with currentState := RouterState.WAITING_FOR_ANALYSIS,
                          riserCylinderState := true } false 5000).1.currentState
      = RouterState.LOWERING ∧
    broadcastsOf (RouterController.loop
        { initRouter with currentState := RouterState.WAITING_FOR_ANALYSIS,
                          riserCylinderState := true } false 5000).2
      = [RouterState.WAITING_FOR_ANALYSIS]) ∧
    ((RouterController.loop { initRouter with currentState := RouterState.PUSHING }
        false 3000).1.currentState = RouterState.RAISING ∧
    broadcastsOf (RouterController.loop
        { initRouter with currentState := RouterState.PUSHING } false 3000).2
      = [RouterState.PUSHING, RouterState.RAISING, RouterState.RAISING]) := by decide

/-- Claim C8 amended: no transition is silent — every tick, verdict or abort
event that changes the state emits at least one state-change notification —
but a transition may emit several notifications, and notifications emitted by
the actuator-deactivation helpers before the state assignment report the
pre-transition state. -/
theorem transition_emits_broadcast (r : Router) (e sensor : Bool) (now : Nat) :
    ((RouterController.loop r sensor now).1.currentState ≠ r.currentState →
      1 ≤ (broadcastsOf (RouterController.loop r sensor now).2).length) ∧
    ((handleAnalysisResult r e now).1.currentState ≠ r.currentState →
      1 ≤ (broadcastsOf (handleAnalysisResult r e now).2).length) ∧
    ((abortCurrentAnalysis r now).1.currentState ≠ r.currentState →
      1 ≤ (broadcastsOf (abortCurrentAnalysis r now).2).length) := by
  obtain ⟨st, cst, sst, pt, rt, et, am, ac, se, pc, rc, ec, ls⟩ := r
  cases st <;> cases e <;> cases sensor <;> cases ls <;> cases am <;>
    simp [RouterController.loop, updateState, startCycle, startAnalysis,
      abortAnalysis, abortCurrentAnalysis, lowerAndWait, startEjection,
      handleAnalysisResult, activatePushCylinder, deactivatePushCylinder,
      activateRiserCylinder, deactivateRiserCylinder, broadcastState,
      broadcastsOf] <;>
    split_ifs <;> simp_all [broadcastsOf]

/-- Witness for amended C8: the timeout transition, a verdict transition and
an abort transition each emit at least one notification. -/
theorem transition_emits_broadcast_witness :
    1 ≤ (broadcastsOf (RouterController.loop
          { initRouter with currentState := RouterState.WAITING_FOR_ANALYSIS }
          false 5000).2).length ∧
    1 ≤ (broadcastsOf (handleAnalysisResult
          { initRouter with currentState := RouterState.WAITING_FOR_ANALYSIS }
          true 5000).2).length ∧
    1 ≤ (broadcastsOf (abortCurrentAnalysis
          { initRouter with currentState := RouterState.WAITING_FOR_ANALYSIS }
          5000).2).length :=
  ⟨(transition_emits_broadcast
      { initRouter with currentState := RouterState.WAITING_FOR_ANALYSIS }
      true false 5000).1 (by decide),
   (transition_emits_broadcast
      { initRouter with currentState := RouterState.WAITING_FOR_ANALYSIS }
      true false 5000).2.1 (by decide),
   (transition_emits_broadcast
      { initRouter with currentState := RouterState.WAITING_FOR_ANALYSIS }
      true false 5000).2.2 (by decide)⟩

/-- Claim C9 counterexample: the LOWERING → IDLE transition does not reset
stateStartTime — LOWERING entered at time 5 and ticked at time 2000 ends in
IDLE with stateStartTime still 5, not 2000, contradicting "stateStartTime is
assigned the current clock reading on every transition, including the
transition from Lowering back to Idle". -/
theorem lowering_to_idle_keeps_stateStartTime :
    (RouterController.loop
        { initRouter with currentState := RouterState.LOWERING, stateStartTime := 5 }
        false 2000).1.currentState = RouterState.IDLE ∧
    (RouterController.loop
        { initRouter with currentState := RouterState.LOWERING, stateStartTime := 5 }
        false 2000).1.stateStartTime = 5 := by decide

/-- Claim C9 amended: stateStartTime is assigned the current clock reading on
every state transition — tick, verdict or abort — except LOWERING → IDLE,
which leaves it unchanged (harmless, since IDLE has no elapsed-time guard and
startCycle re-captures it when the next cycle begins). -/
theorem stateStartTime_reset_except_idle (r : Router) (e sensor : Bool) (now : Nat) :
    ((RouterController.loop r sensor now).1.currentState ≠ r.currentState →
      ((RouterController.loop r sensor now).1.currentState ≠ RouterState.IDLE →
        (RouterController.loop r sensor now).1.stateStartTime = now) ∧
      ((RouterController.loop r sensor now).1.currentState = RouterState.IDLE →
        (RouterController.loop r sensor now).1.stateStartTime = r.stateStartTime)) ∧
    ((handleAnalysisResult r e now).1.currentState ≠ r.currentState →
      (handleAnalysisResult r e now).1.stateStartTime = now) ∧
    ((abortCurrentAnalysis r now).1.currentState ≠ r.currentState →
      (abortCurrentAnalysis r now).1.stateStartTime = now) := by
  obtain ⟨st, cst, sst, pt, rt, et, am, ac, se, pc, rc, ec, ls⟩ := r
  cases st <;> cases e <;> cases sensor <;> cases ls <;> cases am <;>
    simp [RouterController.loop, updateState, startCycle, startAnalysis,
      abortAnalysis, abortCurrentAnalysis, lowerAndWait, startEjection,
      handleAnalysisResult, activatePushCylinder, deactivatePushCylinder,
      activateRiserCylinder, deactivateRiserCylinder, broadcastState] <;>
    split_ifs <;> simp_all

/-- Witness for amended C9: the LOWERING → IDLE tick transition keeps the
recorded stateStartTime (5), while a verdict transition and an abort
transition out of WAITING_FOR_ANALYSIS both stamp the current time (6000). -/
theorem stateStartTime_reset_except_idle_witness :
    (RouterController.loop
        { initRouter with currentState := RouterState.LOWERING, stateStartTime := 5 }
        false 2000).1.stateStartTime = 5 ∧
    (handleAnalysisResult
        { initRouter with currentState := RouterState.WAITING_FOR_ANALYSIS }
        true 6000).1.stateStartTime = 6000 ∧
    (abortCurrentAnalysis
        { initRouter with currentState := RouterState.WAITING_FOR_ANALYSIS }
        6000).1.stateStartTime = 6000 :=
  ⟨((stateStartTime_reset_except_idle
        { initRouter with currentState := RouterState.LOWERING, stateStartTime := 5 }
        true false 2000).1 (by decide)).2 (by decide),
   (stateStartTime_reset_except_idle
        { initRouter with currentState := RouterState.WAITING_FOR_ANALYSIS }
        true false 6000).2.1 (by decide),
   (stateStartTime_reset_except_idle
        { initRouter with currentState := RouterState.WAITING_FOR_ANALYSIS }
        true false 6000).2.2 (by decide)⟩

/-- Claim C10: one call to RouterController::loop performs at most one state
transition — the resulting state equals the previous state or is one immediate
successor in the transition table, never the result of two chained
transitions within one tick. -/
theorem loop_at_most_one_transition (r : Router) (sensor : Bool) (now : Nat) :
    (RouterController.loop r sensor now).1.currentState = r.currentState ∨
    isSuccessor r.currentState (RouterController.loop r sensor now).1.currentState = true := by
  obtain ⟨st, cst, sst, pt, rt, et, am, ac, se, pc, rc, ec, ls⟩ := r
  cases st <;> cases sensor <;> cases ls <;> cases am <;>
    simp [RouterController.loop, updateState, startCycle, startAnalysis,
      abortAnalysis, lowerAndWait, startEjection, activatePushCylinder,
      deactivatePushCylinder, activateRiserCylinder, deactivateRiserCylinder,
      broadcastState, isSuccessor] <;>
    split_ifs <;> simp [isSuccessor]
